import Mathlib

/-!
# ImageValidationWebhook: the admission handler `ValidationWebhook.Handle`

A shallow embedding of `main.go`.  The repository is one file; the handler
`Handle` decodes the admission request into a `Pod`, walks the pod's containers
and answers with one of the three response constructors of the
controller-runtime `admission` package.

The embedding keeps Go's distinctions where the handler can observe them:

* a slice is either nil or a sequence (`Option (List _)`), and `range` over
  either kind of empty slice runs no iteration;
* a pointer field may be nil (`Option _`), and reading a field through a nil
  pointer panics: a call yields `Exec.returns` or `Exec.panics`;
* an `error` is represented by the text its `Error()` method gives.

The deserializer behind `admission.Decoder` is taken as a parameter (the
`codecs` field), so every statement holds for every deserializer.
-/

namespace ImageValidationWebhook

/-! ## Go execution outcome -/

/-- Outcome of a Go call: it returns a value, or the goroutine panics. -/
inductive Exec (α : Type) where
  | returns (a : α)
  | panics (msg : String)
  deriving DecidableEq, Repr

/-- Text of the run-time panic raised by reading through a nil pointer. -/
def nilDereference : String :=
  "runtime error: invalid memory address or nil pointer dereference"

/-- Elements visited by `for _, x := range s`: none for a nil slice. -/
def rangeOf {α : Type} : Option (List α) → List α
  | none => []
  | some xs => xs

/-! ## Data model of `main.go` -/

/-- The Go type `Container` (main.go, lines 33-35). -/
structure Container where
  Image : String
  deriving DecidableEq, Repr

/-- The Go type `PodSpec` (main.go, lines 29-31); `Containers` is a slice. -/
structure PodSpec where
  Containers : Option (List Container)
  deriving DecidableEq, Repr

/-- The fields of `metav1.TypeMeta`. -/
structure TypeMeta where
  Kind : String
  APIVersion : String
  deriving DecidableEq, Repr

/-- An abridged `metav1.ObjectMeta`: the handler reads none of its fields. -/
structure ObjectMeta where
  Name : String
  Namespace : String
  Labels : List (String × String)
  deriving DecidableEq, Repr

/-- The Go type `Pod` (main.go, lines 23-27). -/
structure Pod where
  TypeMeta : TypeMeta
  ObjectMeta : ObjectMeta
  Spec : PodSpec
  deriving DecidableEq, Repr

/-- The zero value `Pod{}` that `Handle` allocates before decoding. -/
def Pod.zero : Pod :=
  ⟨⟨"", ""⟩, ⟨"", "", []⟩, ⟨none⟩⟩

/-! ## The `admission` package of controller-runtime, as far as `Handle` uses it -/

/-- The type `runtime.RawExtension`: the raw bytes of the embedded object. -/
structure RawExtension where
  Raw : List Nat
  deriving DecidableEq, Repr

/-- An abridged `admission.Request`: identifier, operation kind, object names
    and the raw payloads. -/
structure Request where
  UID : String
  Operation : String
  Name : String
  Namespace : String
  Object : RawExtension
  OldObject : RawExtension
  deriving DecidableEq, Repr

/-- The fields of `metav1.Status` that the response constructors write. -/
structure Status where
  Code : Int
  Message : String
  Reason : String
  deriving DecidableEq, Repr

/-- An abridged `admission.Response`: the request identifier, the allowed flag and
    the result status behind a pointer.  The fields left out (patches, audit
    annotations, warnings) are nil in every response the constructors build. -/
structure Response where
  UID : String
  Allowed : Bool
  Result : Option Status
  deriving DecidableEq, Repr

/-- The constant `http.StatusOK`. -/
def StatusOK : Int := 200

/-- The constant `http.StatusBadRequest`. -/
def StatusBadRequest : Int := 400

/-- The constant `http.StatusForbidden`. -/
def StatusForbidden : Int := 403

/-- The constant `metav1.StatusReasonForbidden`. -/
def StatusReasonForbidden : String := "Forbidden"

/-- The constructor `admission.ValidationResponse`: code 200 and no reason when
    allowed, code 403 and reason Forbidden otherwise; the caller's text becomes
    the status message when it is not empty.  The request identifier is not
    written.  (Releases before 0.15 store the caller's text in the status reason
    instead; the embedding follows the later layout.) -/
def ValidationResponse (allowed : Bool) (message : String) : Response :=
  let code := if allowed then StatusOK else StatusForbidden
  let reason := if allowed then "" else StatusReasonForbidden
  let resp : Response := ⟨"", allowed, some ⟨code, "", reason⟩⟩
  if message.length > 0 then
    ⟨resp.UID, resp.Allowed, some ⟨code, message, reason⟩⟩
  else resp

/-- The constructor `admission.Allowed`. -/
def Allowed (message : String) : Response :=
  ValidationResponse true message

/-- The constructor `admission.Denied`. -/
def Denied (message : String) : Response :=
  ValidationResponse false message

/-- The constructor `admission.Errored`: not allowed, with the given code and the
    text of the error as status message. -/
def Errored (code : Int) (err : String) : Response :=
  ⟨"", false, some ⟨code, err, ""⟩⟩

/-- The call `fmt.Errorf(format ++ "%w", err)` for a format whose only verb is
    the trailing `%w`: the text of the wrapping error. -/
def Errorf (format : String) (err : String) : String :=
  format ++ err

/-- The type `admission.Decoder`.  Its one field holds the codec factory; what the
    embedding keeps of it is the effect of `runtime.DecodeInto` with the
    universal deserializer: from the raw bytes and the object to fill, either
    an error text or the filled object. -/
structure Decoder where
  codecs : List Nat → Pod → Except String Pod

/-- The method `(*Decoder).DecodeRaw`: empty content is an error; otherwise the
    codec factory is read through the receiver, which panics when the
    receiver is nil. -/
def Decoder.DecodeRaw (d : Option Decoder) (rawObj : RawExtension) (into : Pod) :
    Exec (Except String Pod) :=
  if rawObj.Raw.length = 0 then
    Exec.returns (Except.error "there is no content to decode")
  else
    match d with
    | none => Exec.panics nilDereference
    | some dec => Exec.returns (dec.codecs rawObj.Raw into)

/-- The method `(*Decoder).Decode`: empty content is an error, otherwise
    `DecodeRaw` on the request's object. -/
def Decoder.Decode (d : Option Decoder) (req : Request) (into : Pod) :
    Exec (Except String Pod) :=
  if req.Object.Raw.length = 0 then
    Exec.returns (Except.error "there is no content to decode")
  else
    Decoder.DecodeRaw d req.Object into

/-! ## The handler -/

/-- The interface `client.Client`, which `Handle` never calls: a handle. -/
structure Client where
  handle : Nat
  deriving DecidableEq, Repr

/-- The type `context.Context`, which `Handle` never reads. -/
structure Context where
  done : Bool
  deriving DecidableEq, Repr

/-- The Go type `ValidationWebhook` (main.go, lines 17-20): an interface value and
    a pointer, either of which may be nil. -/
structure ValidationWebhook where
  Client : Option Client
  Decoder : Option Decoder

/-- The loop of `Handle` (main.go, lines 45-49): `some r` when the body returns
    `r` at some container, `none` when the loop runs to its end. -/
def Handle.loop : List Container → Option Response
  | [] => none
  | container :: rest =>
    if container.Image = "" then
      some (Denied "image name is not defined for container")
    else
      Handle.loop rest

/-- The method `(*ValidationWebhook).Handle` (main.go, lines 37-53). -/
def Handle (v : ValidationWebhook) (_ctx : Context) (req : Request) : Exec Response :=
  match Decoder.Decode v.Decoder req Pod.zero with
  | Exec.panics msg => Exec.panics msg
  | Exec.returns (Except.error err) =>
    Exec.returns (Errored StatusBadRequest (Errorf "could not decode object: " err))
  | Exec.returns (Except.ok pod) =>
    match Handle.loop (rangeOf pod.Spec.Containers) with
    | some resp => Exec.returns resp
    | none => Exec.returns (Allowed "image name is defined")

/-- The handler that `main` builds (main.go, lines 63-65): the manager's client
    is stored, the `Decoder` field keeps its zero value nil. -/
def mainHandler (mgrClient : Client) : ValidationWebhook :=
  ⟨some mgrClient, none⟩

/-! ## Verdicts read off a response -/

/-- Text carried by a response: the message of its result status. -/
def Response.message (r : Response) : String :=
  match r.Result with
  | some s => s.Message
  | none => ""

/-- Code carried by a response: the code of its result status. -/
def Response.code (r : Response) : Int :=
  match r.Result with
  | some s => s.Code
  | none => 0

/-- The response is an Allowed verdict: what `admission.Allowed` builds from its
    own message. -/
def Response.isAllowed (r : Response) : Bool :=
  decide (r = ImageValidationWebhook.Allowed r.message)

/-- The response is a Denied verdict: what `admission.Denied` builds from its own
    message. -/
def Response.isDenied (r : Response) : Bool :=
  decide (r = ImageValidationWebhook.Denied r.message)

/-- The response is an Errored verdict: what `admission.Errored` builds from its
    own code and message. -/
def Response.isErrored (r : Response) : Bool :=
  decide (r = ImageValidationWebhook.Errored r.code r.message)

/-! ## Fixtures for the concrete instances -/

/-- A deserializer that fills the object with a fixed pod. -/
def fixedDecoder (p : Pod) : Decoder :=
  ⟨fun _ _ => Except.ok p⟩

/-- A deserializer that rejects every payload with a fixed error text. -/
def failingDecoder (e : String) : Decoder :=
  ⟨fun _ _ => Except.error e⟩

/-- A pod with the given containers slice and zero type and object metadata. -/
def podOf (cs : Option (List Container)) : Pod :=
  ⟨⟨"", ""⟩, ⟨"", "", []⟩, ⟨cs⟩⟩

/-- A create request with identifier `uid` whose object is the two bytes of an
    empty JSON object. -/
def sampleRequest (uid : String) : Request :=
  ⟨uid, "CREATE", "", "", ⟨[123, 125]⟩, ⟨[]⟩⟩

/-- A create request with identifier `uid` that carries no object. -/
def emptyRequest (uid : String) : Request :=
  ⟨uid, "CREATE", "", "", ⟨[]⟩, ⟨[]⟩⟩

/-- A handler whose decoder fills the object with the pod `p`. -/
def handlerFor (p : Pod) : ValidationWebhook :=
  ⟨none, some (fixedDecoder p)⟩

/-- A handler whose decoder rejects every payload with the error text `e`. -/
def handlerFailing (e : String) : ValidationWebhook :=
  ⟨none, some (failingDecoder e)⟩

/-- The containers up to and including the first one whose image is empty (all of
    them when no image is empty). -/
def truncateAfterFirstEmpty (cs : List Container) : List Container :=
  cs.takeWhile (fun c => decide (c.Image ≠ "")) ++
    (cs.dropWhile (fun c => decide (c.Image ≠ ""))).take 1

/-! ## Lemmas on the response constructors -/

theorem ValidationResponse_eq (allowed : Bool) (message : String) :
    ValidationResponse allowed message =
      ⟨"", allowed, some ⟨if allowed then StatusOK else StatusForbidden, message,
        if allowed then "" else StatusReasonForbidden⟩⟩ := by
  unfold ValidationResponse
  by_cases h : message.length > 0
  · simp [h]
  · have h0 : message = "" := by
      have hl : message.length = 0 := by omega
      exact String.ext (List.length_eq_zero.mp hl)
    subst h0
    simp

theorem Allowed_eq (m : String) : Allowed m = ⟨"", true, some ⟨200, m, ""⟩⟩ := by
  simp [Allowed, ValidationResponse_eq, StatusOK]

theorem Denied_eq (m : String) : Denied m = ⟨"", false, some ⟨403, m, "Forbidden"⟩⟩ := by
  simp [Denied, ValidationResponse_eq, StatusForbidden, StatusReasonForbidden]

theorem shape_Allowed (m : String) :
    (Allowed m).isAllowed = true ∧ (Allowed m).isDenied = false ∧
      (Allowed m).isErrored = false ∧ (Allowed m).message = m ∧
      (Allowed m).Allowed = true := by
  simp [Response.isAllowed, Response.isDenied, Response.isErrored, Response.message,
    Response.code, Allowed_eq, Denied_eq, Errored]

theorem shape_Denied (m : String) :
    (Denied m).isAllowed = false ∧ (Denied m).isDenied = true ∧
      (Denied m).isErrored = false ∧ (Denied m).message = m ∧
      (Denied m).Allowed = false := by
  simp [Response.isAllowed, Response.isDenied, Response.isErrored, Response.message,
    Response.code, Allowed_eq, Denied_eq, Errored]

theorem shape_Errored (code : Int) (m : String) :
    (Errored code m).isAllowed = false ∧ (Errored code m).isDenied = false ∧
      (Errored code m).isErrored = true ∧ (Errored code m).message = m ∧
      (Errored code m).Allowed = false ∧ (Errored code m).code = code := by
  simp [Response.isAllowed, Response.isDenied, Response.isErrored, Response.message,
    Response.code, Allowed_eq, Denied_eq, Errored]

theorem Errorf_ne_empty (err : String) : Errorf "could not decode object: " err ≠ "" := by
  intro h
  have hl := congrArg String.length h
  simp [Errorf, String.length_append] at hl
  exact absurd hl.1 (by decide)

/-! ## Lemmas on the loop and on the two paths of the handler -/

theorem loop_eq_none_iff (cs : List Container) :
    Handle.loop cs = none ↔ ∀ c ∈ cs, c.Image ≠ "" := by
  induction cs with
  | nil => simp [Handle.loop]
  | cons c rest ih =>
    by_cases h : c.Image = ""
    · simp [Handle.loop, h]
    · simp [Handle.loop, h, ih]

theorem loop_eq_some_iff (cs : List Container) (r : Response) :
    Handle.loop cs = some r ↔
      (r = Denied "image name is not defined for container" ∧ ∃ c ∈ cs, c.Image = "") := by
  induction cs with
  | nil => simp [Handle.loop]
  | cons c rest ih =>
    by_cases h : c.Image = ""
    · simp only [Handle.loop, h, if_true, Option.some.injEq]
      constructor
      · intro hr
        exact ⟨hr.symm, c, List.mem_cons_self c rest, h⟩
      · intro hr
        exact hr.1.symm
    · simp [Handle.loop, h, ih]

theorem loop_of_empty_image (cs : List Container) (h : ∃ c ∈ cs, c.Image = "") :
    Handle.loop cs = some (Denied "image name is not defined for container") :=
  (loop_eq_some_iff cs _).mpr ⟨rfl, h⟩

theorem Handle_of_decoded (v : ValidationWebhook) (ctx : Context) (req : Request) (pod : Pod)
    (hdec : Decoder.Decode v.Decoder req Pod.zero = Exec.returns (Except.ok pod)) :
    Handle v ctx req =
      Exec.returns ((Handle.loop (rangeOf pod.Spec.Containers)).getD
        (Allowed "image name is defined")) := by
  unfold Handle
  rw [hdec]
  dsimp only
  cases Handle.loop (rangeOf pod.Spec.Containers) <;> rfl

theorem Handle_of_decode_error (v : ValidationWebhook) (ctx : Context) (req : Request)
    (err : String)
    (hdec : Decoder.Decode v.Decoder req Pod.zero = Exec.returns (Except.error err)) :
    Handle v ctx req =
      Exec.returns (Errored StatusBadRequest (Errorf "could not decode object: " err)) := by
  unfold Handle
  rw [hdec]

theorem Handle_of_decode_panic (v : ValidationWebhook) (ctx : Context) (req : Request)
    (msg : String)
    (hdec : Decoder.Decode v.Decoder req Pod.zero = Exec.panics msg) :
    Handle v ctx req = Exec.panics msg := by
  unfold Handle
  rw [hdec]

theorem Handle_allowed_of_nonempty (v : ValidationWebhook) (ctx : Context) (req : Request)
    (pod : Pod)
    (hdec : Decoder.Decode v.Decoder req Pod.zero = Exec.returns (Except.ok pod))
    (hall : ∀ c ∈ rangeOf pod.Spec.Containers, c.Image ≠ "") :
    Handle v ctx req = Exec.returns (Allowed "image name is defined") := by
  rw [Handle_of_decoded v ctx req pod hdec, (loop_eq_none_iff _).mpr hall]
  rfl

theorem Handle_denied_of_empty (v : ValidationWebhook) (ctx : Context) (req : Request)
    (pod : Pod)
    (hdec : Decoder.Decode v.Decoder req Pod.zero = Exec.returns (Except.ok pod))
    (hex : ∃ c ∈ rangeOf pod.Spec.Containers, c.Image = "") :
    Handle v ctx req = Exec.returns (Denied "image name is not defined for container") := by
  rw [Handle_of_decoded v ctx req pod hdec, loop_of_empty_image _ hex]
  rfl

theorem truncate_keeps_empty (cs : List Container) (h : ∃ c ∈ cs, c.Image = "") :
    ∃ c ∈ truncateAfterFirstEmpty cs, c.Image = "" := by
  induction cs with
  | nil => simp at h
  | cons c rest ih =>
    by_cases hc : c.Image = ""
    · exact ⟨c, by simp [truncateAfterFirstEmpty, List.takeWhile, List.dropWhile, hc], hc⟩
    · have hrest : ∃ d ∈ rest, d.Image = "" := by
        obtain ⟨d, hd, hde⟩ := h
        rcases List.mem_cons.mp hd with rfl | hd
        · exact absurd hde hc
        · exact ⟨d, hd, hde⟩
      obtain ⟨d, hd, hde⟩ := ih hrest
      refine ⟨d, ?_, hde⟩
      simp only [truncateAfterFirstEmpty, List.takeWhile, List.dropWhile, hc, ne_eq,
        not_false_eq_true, decide_True, List.cons_append, List.mem_cons]
      exact Or.inr hd

/-! ## The claims -/

/-- C1: when the decode succeeds, Handle returns a response, and that response is
    Denied exactly when some container of the decoded pod has the empty string as
    image; wherever such a container stands and whatever containers surround
    it, the response is Denied. -/
theorem Handle_denied_iff_some_image_empty (v : ValidationWebhook) (ctx : Context)
    (req : Request) (pod : Pod)
    (hdec : Decoder.Decode v.Decoder req Pod.zero = Exec.returns (Except.ok pod)) :
    ∃ r, Handle v ctx req = Exec.returns r ∧
      (r.isDenied = true ↔ ∃ c ∈ rangeOf pod.Spec.Containers, c.Image = "") ∧
      (∀ (before after : List Container) (c : Container),
        rangeOf pod.Spec.Containers = before ++ c :: after → c.Image = "" →
          r.isDenied = true) := by
  by_cases hex : ∃ c ∈ rangeOf pod.Spec.Containers, c.Image = ""
  · refine ⟨_, Handle_denied_of_empty v ctx req pod hdec hex, ?_, ?_⟩
    · simp [(shape_Denied _).2.1, hex]
    · intro _ _ _ _ _
      exact (shape_Denied _).2.1
  · have hall : ∀ c ∈ rangeOf pod.Spec.Containers, c.Image ≠ "" := by
      intro c hc he
      exact hex ⟨c, hc, he⟩
    refine ⟨_, Handle_allowed_of_nonempty v ctx req pod hdec hall, ?_, ?_⟩
    · simp [(shape_Allowed _).2.1, hex]
    · intro before after c hsplit hc
      exact absurd hc (hall c (by simp [hsplit]))

theorem Handle_denied_iff_some_image_empty_witness :
    Decoder.Decode (handlerFor (podOf (some [⟨"app:1"⟩, ⟨""⟩, ⟨"db:2"⟩]))).Decoder
        (sampleRequest "u1") Pod.zero
      = Exec.returns (Except.ok (podOf (some [⟨"app:1"⟩, ⟨""⟩, ⟨"db:2"⟩]))) ∧
    ∃ r, Handle (handlerFor (podOf (some [⟨"app:1"⟩, ⟨""⟩, ⟨"db:2"⟩]))) ⟨false⟩
        (sampleRequest "u1") = Exec.returns r ∧
      (r.isDenied = true ↔
        ∃ c ∈ rangeOf (podOf (some [⟨"app:1"⟩, ⟨""⟩, ⟨"db:2"⟩])).Spec.Containers,
          c.Image = "") ∧
      (∀ (before after : List Container) (c : Container),
        rangeOf (podOf (some [⟨"app:1"⟩, ⟨""⟩, ⟨"db:2"⟩])).Spec.Containers
            = before ++ c :: after → c.Image = "" → r.isDenied = true) :=
  ⟨rfl, Handle_denied_iff_some_image_empty _ ⟨false⟩ (sampleRequest "u1") _ rfl⟩

/-- C2: when the decode succeeds and every container of the decoded pod has a
    non-empty image, Handle returns the Allowed response whose reason is exactly
    "image name is defined". -/
theorem Handle_allowed_when_every_image_nonempty (v : ValidationWebhook) (ctx : Context)
    (req : Request) (pod : Pod)
    (hdec : Decoder.Decode v.Decoder req Pod.zero = Exec.returns (Except.ok pod))
    (hall : ∀ c ∈ rangeOf pod.Spec.Containers, c.Image ≠ "") :
    ∃ r, Handle v ctx req = Exec.returns r ∧ r = Allowed "image name is defined" ∧
      r.isAllowed = true ∧ r.Allowed = true ∧ r.message = "image name is defined" := by
  refine ⟨_, Handle_allowed_of_nonempty v ctx req pod hdec hall, rfl, ?_, ?_, ?_⟩
  · exact (shape_Allowed _).1
  · exact (shape_Allowed _).2.2.2.2
  · exact (shape_Allowed _).2.2.2.1

theorem Handle_allowed_when_every_image_nonempty_witness :
    Decoder.Decode (handlerFor (podOf (some [⟨"nginx:latest"⟩, ⟨"redis:7"⟩]))).Decoder
        (sampleRequest "u2") Pod.zero
      = Exec.returns (Except.ok (podOf (some [⟨"nginx:latest"⟩, ⟨"redis:7"⟩]))) ∧
    (∀ c ∈ rangeOf (podOf (some [⟨"nginx:latest"⟩, ⟨"redis:7"⟩])).Spec.Containers,
      c.Image ≠ "") ∧
    ∃ r, Handle (handlerFor (podOf (some [⟨"nginx:latest"⟩, ⟨"redis:7"⟩]))) ⟨false⟩
        (sampleRequest "u2") = Exec.returns r ∧ r = Allowed "image name is defined" ∧
      r.isAllowed = true ∧ r.Allowed = true ∧ r.message = "image name is defined" :=
  ⟨rfl, by decide,
    Handle_allowed_when_every_image_nonempty _ ⟨false⟩ (sampleRequest "u2") _ rfl (by decide)⟩

/-- C3: Handle returns an Errored response exactly when the decode returns an
    error; that response is not allowed, has code 400 and the message "could not
    decode object: " followed by the decoder's error text, and is neither Allowed
    nor Denied; a request whose decode succeeds gets a response that is not
    Errored. -/
theorem Handle_errored_iff_decode_fails (v : ValidationWebhook) (ctx : Context)
    (req : Request) :
    ((∃ r, Handle v ctx req = Exec.returns r ∧ r.isErrored = true) ↔
      ∃ err, Decoder.Decode v.Decoder req Pod.zero = Exec.returns (Except.error err)) ∧
    (∀ err, Decoder.Decode v.Decoder req Pod.zero = Exec.returns (Except.error err) →
      ∃ r, Handle v ctx req = Exec.returns r ∧ r.isErrored = true ∧ r.Allowed = false ∧
        r.code = 400 ∧ r.message = "could not decode object: " ++ err ∧
        r.isAllowed = false ∧ r.isDenied = false) ∧
    (∀ pod, Decoder.Decode v.Decoder req Pod.zero = Exec.returns (Except.ok pod) →
      ∃ r, Handle v ctx req = Exec.returns r ∧ r.isErrored = false) := by
  have herr : ∀ err,
      Decoder.Decode v.Decoder req Pod.zero = Exec.returns (Except.error err) →
      ∃ r, Handle v ctx req = Exec.returns r ∧ r.isErrored = true ∧ r.Allowed = false ∧
        r.code = 400 ∧ r.message = "could not decode object: " ++ err ∧
        r.isAllowed = false ∧ r.isDenied = false := by
    intro err hdec
    have hs := shape_Errored StatusBadRequest (Errorf "could not decode object: " err)
    exact ⟨_, Handle_of_decode_error v ctx req err hdec, hs.2.2.1, hs.2.2.2.2.1,
      hs.2.2.2.2.2, hs.2.2.2.1, hs.1, hs.2.1⟩
  have hok : ∀ pod,
      Decoder.Decode v.Decoder req Pod.zero = Exec.returns (Except.ok pod) →
      ∃ r, Handle v ctx req = Exec.returns r ∧ r.isErrored = false := by
    intro pod hdec
    refine ⟨_, Handle_of_decoded v ctx req pod hdec, ?_⟩
    cases hl : Handle.loop (rangeOf pod.Spec.Containers) with
    | none => exact (shape_Allowed _).2.2.1
    | some r =>
      rw [((loop_eq_some_iff _ r).mp hl).1]
      exact (shape_Denied _).2.2.1
  refine ⟨⟨?_, ?_⟩, herr, hok⟩
  · rintro ⟨r, hr, hre⟩
    cases hdec : Decoder.Decode v.Decoder req Pod.zero with
    | panics msg =>
      rw [Handle_of_decode_panic v ctx req msg hdec] at hr
      cases hr
    | returns res =>
      cases res with
      | error err => exact ⟨err, rfl⟩
      | ok pod =>
        obtain ⟨r2, hr2, hne⟩ := hok pod hdec
        rw [hr] at hr2
        cases hr2
        rw [hre] at hne
        cases hne
  · rintro ⟨err, hdec⟩
    obtain ⟨r, hr, hre, _⟩ := herr err hdec
    exact ⟨r, hr, hre⟩

theorem Handle_errored_iff_decode_fails_witness :
    Decoder.Decode (handlerFailing "unexpected end of JSON input").Decoder
        (sampleRequest "u3") Pod.zero
      = Exec.returns (Except.error "unexpected end of JSON input") ∧
    ∃ r, Handle (handlerFailing "unexpected end of JSON input") ⟨false⟩
        (sampleRequest "u3") = Exec.returns r ∧ r.isErrored = true ∧ r.Allowed = false ∧
      r.code = 400 ∧
      r.message = "could not decode object: " ++ "unexpected end of JSON input" ∧
      r.isAllowed = false ∧ r.isDenied = false :=
  ⟨rfl, (Handle_errored_iff_decode_fails (handlerFailing "unexpected end of JSON input")
    ⟨false⟩ (sampleRequest "u3")).2.1 "unexpected end of JSON input" rfl⟩

/-- C4: when the decode succeeds with a pod whose containers slice is nil or
    empty, Handle returns the Allowed response with reason "image name is
    defined", which is neither Errored nor Denied. -/
theorem Handle_allowed_when_no_containers (v : ValidationWebhook) (ctx : Context)
    (req : Request) (pod : Pod)
    (hdec : Decoder.Decode v.Decoder req Pod.zero = Exec.returns (Except.ok pod))
    (hnone : pod.Spec.Containers = none ∨ pod.Spec.Containers = some []) :
    ∃ r, Handle v ctx req = Exec.returns r ∧ r = Allowed "image name is defined" ∧
      r.isAllowed = true ∧ r.message = "image name is defined" ∧
      r.isErrored = false ∧ r.isDenied = false := by
  have hall : ∀ c ∈ rangeOf pod.Spec.Containers, c.Image ≠ "" := by
    rcases hnone with h | h <;> simp [h, rangeOf]
  have hs := shape_Allowed "image name is defined"
  exact ⟨_, Handle_allowed_of_nonempty v ctx req pod hdec hall, rfl, hs.1, hs.2.2.2.1,
    hs.2.2.1, hs.2.1⟩

theorem Handle_allowed_when_no_containers_witness :
    Decoder.Decode (handlerFor (podOf none)).Decoder (sampleRequest "u4") Pod.zero
      = Exec.returns (Except.ok (podOf none)) ∧
    ((podOf none).Spec.Containers = none ∨ (podOf none).Spec.Containers = some []) ∧
    ∃ r, Handle (handlerFor (podOf none)) ⟨false⟩ (sampleRequest "u4") = Exec.returns r ∧
      r = Allowed "image name is defined" ∧
      r.isAllowed = true ∧ r.message = "image name is defined" ∧
      r.isErrored = false ∧ r.isDenied = false :=
  ⟨rfl, Or.inl rfl,
    Handle_allowed_when_no_containers _ ⟨false⟩ (sampleRequest "u4") _ rfl (Or.inl rfl)⟩

/-- C5: when the decoded pod has a container with an empty image, Handle returns
    the Denied response with the constant reason "image name is not defined for
    container"; a request that decodes to the containers truncated right after
    the first empty image gets the same response, and so does every request
    whose pod has an empty image anywhere, whatever follows the first one and
    however many there are. -/
theorem Handle_short_circuit_fixed_report (v v2 : ValidationWebhook) (ctx ctx2 : Context)
    (req req2 : Request) (pod pod2 : Pod)
    (hdec : Decoder.Decode v.Decoder req Pod.zero = Exec.returns (Except.ok pod))
    (hdec2 : Decoder.Decode v2.Decoder req2 Pod.zero = Exec.returns (Except.ok pod2))
    (hex : ∃ c ∈ rangeOf pod.Spec.Containers, c.Image = "") :
    Handle v ctx req
        = Exec.returns (Denied "image name is not defined for container") ∧
      (rangeOf pod2.Spec.Containers = truncateAfterFirstEmpty (rangeOf pod.Spec.Containers) →
        Handle v2 ctx2 req2 = Handle v ctx req) ∧
      ((∃ c ∈ rangeOf pod2.Spec.Containers, c.Image = "") →
        Handle v2 ctx2 req2 = Handle v ctx req) := by
  have h1 := Handle_denied_of_empty v ctx req pod hdec hex
  refine ⟨h1, ?_, ?_⟩
  · intro htr
    rw [h1]
    apply Handle_denied_of_empty v2 ctx2 req2 pod2 hdec2
    rw [htr]
    exact truncate_keeps_empty _ hex
  · intro hex2
    rw [h1]
    exact Handle_denied_of_empty v2 ctx2 req2 pod2 hdec2 hex2

theorem Handle_short_circuit_fixed_report_witness :
    Decoder.Decode (handlerFor (podOf (some [⟨"app:1"⟩, ⟨""⟩, ⟨"db:2"⟩, ⟨""⟩]))).Decoder
        (sampleRequest "u5") Pod.zero
      = Exec.returns (Except.ok (podOf (some [⟨"app:1"⟩, ⟨""⟩, ⟨"db:2"⟩, ⟨""⟩]))) ∧
    Decoder.Decode (handlerFor (podOf (some [⟨"app:1"⟩, ⟨""⟩]))).Decoder
        (sampleRequest "u6") Pod.zero
      = Exec.returns (Except.ok (podOf (some [⟨"app:1"⟩, ⟨""⟩]))) ∧
    (∃ c ∈ rangeOf (podOf (some [⟨"app:1"⟩, ⟨""⟩, ⟨"db:2"⟩, ⟨""⟩])).Spec.Containers,
      c.Image = "") ∧
    rangeOf (podOf (some [⟨"app:1"⟩, ⟨""⟩])).Spec.Containers
      = truncateAfterFirstEmpty
          (rangeOf (podOf (some [⟨"app:1"⟩, ⟨""⟩, ⟨"db:2"⟩, ⟨""⟩])).Spec.Containers) ∧
    Handle (handlerFor (podOf (some [⟨"app:1"⟩, ⟨""⟩, ⟨"db:2"⟩, ⟨""⟩]))) ⟨false⟩
        (sampleRequest "u5")
      = Exec.returns (Denied "image name is not defined for container") ∧
    Handle (handlerFor (podOf (some [⟨"app:1"⟩, ⟨""⟩]))) ⟨true⟩ (sampleRequest "u6")
      = Handle (handlerFor (podOf (some [⟨"app:1"⟩, ⟨""⟩, ⟨"db:2"⟩, ⟨""⟩]))) ⟨false⟩
          (sampleRequest "u5") :=
  have h := Handle_short_circuit_fixed_report
    (handlerFor (podOf (some [⟨"app:1"⟩, ⟨""⟩, ⟨"db:2"⟩, ⟨""⟩])))
    (handlerFor (podOf (some [⟨"app:1"⟩, ⟨""⟩]))) ⟨false⟩ ⟨true⟩
    (sampleRequest "u5") (sampleRequest "u6") _ _ rfl rfl (by decide)
  ⟨rfl, rfl, by decide, by decide, h.1, h.2.1 (by decide)⟩

/-- C6: an image counts as empty only when it equals the empty string.  When the
    decode succeeds and every image is a non-empty string, Handle returns
    Allowed; in particular it returns Allowed when every image is non-empty and
    made of whitespace only, so nothing is trimmed before the comparison. -/
theorem Handle_emptiness_is_exact (v : ValidationWebhook) (ctx : Context)
    (req : Request) (pod : Pod)
    (hdec : Decoder.Decode v.Decoder req Pod.zero = Exec.returns (Except.ok pod)) :
    ((∀ c ∈ rangeOf pod.Spec.Containers, c.Image ≠ "") →
      Handle v ctx req = Exec.returns (Allowed "image name is defined")) ∧
    ((∀ c ∈ rangeOf pod.Spec.Containers,
        c.Image.data ≠ [] ∧ c.Image.data.all Char.isWhitespace = true) →
      Handle v ctx req = Exec.returns (Allowed "image name is defined")) ∧
    ((∀ c ∈ rangeOf pod.Spec.Containers, c.Image = " " ∨ c.Image = "\t") →
      Handle v ctx req = Exec.returns (Allowed "image name is defined")) := by
  refine ⟨Handle_allowed_of_nonempty v ctx req pod hdec, ?_, ?_⟩
  · intro hws
    apply Handle_allowed_of_nonempty v ctx req pod hdec
    intro c hc he
    apply (hws c hc).1
    rw [he]
  · intro hws
    apply Handle_allowed_of_nonempty v ctx req pod hdec
    intro c hc he
    rcases hws c hc with h | h <;> rw [h] at he <;> exact absurd he (by decide)

theorem Handle_emptiness_is_exact_witness :
    Decoder.Decode (handlerFor (podOf (some [⟨" "⟩, ⟨"\t"⟩]))).Decoder
        (sampleRequest "u7") Pod.zero
      = Exec.returns (Except.ok (podOf (some [⟨" "⟩, ⟨"\t"⟩]))) ∧
    (∀ c ∈ rangeOf (podOf (some [⟨" "⟩, ⟨"\t"⟩])).Spec.Containers,
      c.Image.data ≠ [] ∧ c.Image.data.all Char.isWhitespace = true) ∧
    Handle (handlerFor (podOf (some [⟨" "⟩, ⟨"\t"⟩]))) ⟨false⟩ (sampleRequest "u7")
      = Exec.returns (Allowed "image name is defined") :=
  ⟨rfl, by decide,
    (Handle_emptiness_is_exact (handlerFor (podOf (some [⟨" "⟩, ⟨"\t"⟩]))) ⟨false⟩
      (sampleRequest "u7") _ rfl).2.1 (by decide)⟩

/-- C7: every response Handle returns has exactly one of the three shapes Allowed,
    Denied, Errored; the allowed flag is set for the first shape only; the
    response carries a status with a non-empty message, and an Errored one has
    code 400. -/
theorem Handle_response_has_one_shape (v : ValidationWebhook) (ctx : Context)
    (req : Request) (r : Response) (hr : Handle v ctx req = Exec.returns r) :
    ((r.isAllowed = true ∧ r.isDenied = false ∧ r.isErrored = false ∧ r.Allowed = true) ∨
      (r.isAllowed = false ∧ r.isDenied = true ∧ r.isErrored = false ∧ r.Allowed = false) ∨
      (r.isAllowed = false ∧ r.isDenied = false ∧ r.isErrored = true ∧ r.Allowed = false ∧
        r.code = 400)) ∧
    (r.Allowed = false → r.message ≠ "") ∧
    r.message ≠ "" ∧ (∃ s, r.Result = some s) := by
  cases hdec : Decoder.Decode v.Decoder req Pod.zero with
  | panics msg =>
    rw [Handle_of_decode_panic v ctx req msg hdec] at hr
    cases hr
  | returns res =>
    cases res with
    | error err =>
      rw [Handle_of_decode_error v ctx req err hdec] at hr
      cases hr
      have hs := shape_Errored StatusBadRequest (Errorf "could not decode object: " err)
      have hm : (Errored StatusBadRequest (Errorf "could not decode object: " err)).message
          ≠ "" := by
        rw [hs.2.2.2.1]
        exact Errorf_ne_empty err
      exact ⟨Or.inr (Or.inr ⟨hs.1, hs.2.1, hs.2.2.1, hs.2.2.2.2.1, hs.2.2.2.2.2⟩),
        fun _ => hm, hm, ⟨_, rfl⟩⟩
    | ok pod =>
      rw [Handle_of_decoded v ctx req pod hdec] at hr
      cases hr
      cases hl : Handle.loop (rangeOf pod.Spec.Containers) with
      | none =>
        have hs := shape_Allowed "image name is defined"
        have hm : (Allowed "image name is defined").message ≠ "" := by
          rw [hs.2.2.2.1]
          decide
        exact ⟨Or.inl ⟨hs.1, hs.2.1, hs.2.2.1, hs.2.2.2.2⟩, fun _ => hm, hm,
          ⟨_, congrArg Response.Result (Allowed_eq _)⟩⟩
      | some r2 =>
        have hs := shape_Denied "image name is not defined for container"
        have hm : (Denied "image name is not defined for container").message ≠ "" := by
          rw [hs.2.2.2.1]
          decide
        rw [((loop_eq_some_iff _ r2).mp hl).1]
        exact ⟨Or.inr (Or.inl ⟨hs.1, hs.2.1, hs.2.2.1, hs.2.2.2.2⟩), fun _ => hm, hm,
          ⟨_, congrArg Response.Result (Denied_eq _)⟩⟩

theorem Handle_response_has_one_shape_witness :
    Handle (handlerFor (podOf (some [⟨""⟩]))) ⟨false⟩ (sampleRequest "u8")
      = Exec.returns (Denied "image name is not defined for container") ∧
    (Denied "image name is not defined for container").isDenied = true ∧
    (Denied "image name is not defined for container").message ≠ "" :=
  have h := Handle_response_has_one_shape (handlerFor (podOf (some [⟨""⟩]))) ⟨false⟩
    (sampleRequest "u8") (Denied "image name is not defined for container") rfl
  ⟨rfl, by decide, h.2.2.1⟩

/-- C8 as stated fails: a request with identifier "705ab4f5" gets a response
    whose request identifier is empty. -/
theorem Handle_uid_not_echoed :
    Handle (handlerFor (podOf (some [⟨"nginx:latest"⟩]))) ⟨false⟩ (sampleRequest "705ab4f5")
      = Exec.returns (Allowed "image name is defined") ∧
    (Allowed "image name is defined").UID = "" ∧
    (Allowed "image name is defined").UID ≠ (sampleRequest "705ab4f5").UID :=
  ⟨rfl, by decide, by decide⟩

/-- C8, amended: Handle never writes the request identifier.  Every response it
    returns has the empty identifier, so the response's identifier equals the
    request's only when the request's is empty. -/
theorem Handle_leaves_uid_unset (v : ValidationWebhook) (ctx : Context)
    (req : Request) (r : Response) (hr : Handle v ctx req = Exec.returns r) :
    r.UID = "" ∧ (r.UID = req.UID ↔ req.UID = "") := by
  have hu : r.UID = "" := by
    cases hdec : Decoder.Decode v.Decoder req Pod.zero with
    | panics msg =>
      rw [Handle_of_decode_panic v ctx req msg hdec] at hr
      cases hr
    | returns res =>
      cases res with
      | error err =>
        rw [Handle_of_decode_error v ctx req err hdec] at hr
        cases hr
        rfl
      | ok pod =>
        rw [Handle_of_decoded v ctx req pod hdec] at hr
        cases hr
        cases hl : Handle.loop (rangeOf pod.Spec.Containers) with
        | none => simp [Allowed_eq]
        | some r2 => simp [((loop_eq_some_iff _ r2).mp hl).1, Denied_eq]
  refine ⟨hu, ?_⟩
  rw [hu]
  exact eq_comm

theorem Handle_leaves_uid_unset_witness :
    Handle (handlerFor (podOf (some [⟨""⟩]))) ⟨false⟩ (sampleRequest "705ab4f5")
      = Exec.returns (Denied "image name is not defined for container") ∧
    (Denied "image name is not defined for container").UID = "" ∧
    ((Denied "image name is not defined for container").UID = (sampleRequest "705ab4f5").UID ↔
      (sampleRequest "705ab4f5").UID = "") :=
  ⟨rfl, Handle_leaves_uid_unset (handlerFor (podOf (some [⟨""⟩]))) ⟨false⟩
    (sampleRequest "705ab4f5") _ rfl⟩

/-- C9: Handle is a function of the outcome of the decode alone.  Two invocations,
    with any handlers, contexts and requests, whose decodes give the same
    outcome return the same response, equal in every field. -/
theorem Handle_deterministic (v1 v2 : ValidationWebhook) (ctx1 ctx2 : Context)
    (req1 req2 : Request)
    (hsame : Decoder.Decode v1.Decoder req1 Pod.zero = Decoder.Decode v2.Decoder req2 Pod.zero) :
    Handle v1 ctx1 req1 = Handle v2 ctx2 req2 := by
  unfold Handle
  rw [hsame]

theorem Handle_deterministic_witness :
    Decoder.Decode (handlerFor (podOf (some [⟨"app:1"⟩, ⟨""⟩]))).Decoder
        (sampleRequest "first") Pod.zero
      = Decoder.Decode (ValidationWebhook.mk (some ⟨7⟩)
          (some (fixedDecoder (podOf (some [⟨"app:1"⟩, ⟨""⟩]))))).Decoder
        (sampleRequest "second") Pod.zero ∧
    Handle (handlerFor (podOf (some [⟨"app:1"⟩, ⟨""⟩]))) ⟨false⟩ (sampleRequest "first")
      = Handle (ValidationWebhook.mk (some ⟨7⟩)
          (some (fixedDecoder (podOf (some [⟨"app:1"⟩, ⟨""⟩]))))) ⟨true⟩
        (sampleRequest "second") :=
  ⟨rfl, Handle_deterministic _ _ ⟨false⟩ ⟨true⟩ (sampleRequest "first")
    (sampleRequest "second") rfl⟩

/-- C10 fails on the code: the handler that main builds has a nil Decoder, and on
    a request that carries an object Handle panics instead of returning a
    response; only a request without object content gets a response (Errored,
    code 400). -/
theorem Handle_mainHandler_panics :
    Handle (mainHandler ⟨0⟩) ⟨false⟩ (sampleRequest "u10") = Exec.panics nilDereference ∧
    (¬ ∃ r, Handle (mainHandler ⟨0⟩) ⟨false⟩ (sampleRequest "u10") = Exec.returns r) ∧
    Handle (mainHandler ⟨0⟩) ⟨false⟩ (emptyRequest "u10")
      = Exec.returns (Errored 400 "could not decode object: there is no content to decode") := by
  refine ⟨rfl, ?_, by decide⟩
  rintro ⟨r, hr⟩
  have hp : Handle (mainHandler ⟨0⟩) ⟨false⟩ (sampleRequest "u10")
      = Exec.panics nilDereference := rfl
  rw [hp] at hr
  cases hr

/-! ## Order of the containers and what the verdict depends on -/

theorem loop_perm (cs1 cs2 : List Container) (hperm : List.Perm cs1 cs2) :
    Handle.loop cs1 = Handle.loop cs2 := by
  by_cases hex : ∃ c ∈ cs2, c.Image = ""
  · have hex1 : ∃ c ∈ cs1, c.Image = "" := by
      obtain ⟨c, hc, he⟩ := hex
      exact ⟨c, hperm.mem_iff.mpr hc, he⟩
    rw [loop_of_empty_image cs1 hex1, loop_of_empty_image cs2 hex]
  · have h2 : Handle.loop cs2 = none := by
      apply (loop_eq_none_iff cs2).mpr
      intro c hc he
      exact hex ⟨c, hc, he⟩
    have h1 : Handle.loop cs1 = none := by
      apply (loop_eq_none_iff cs1).mpr
      intro c hc he
      exact hex ⟨c, hperm.mem_iff.mp hc, he⟩
    rw [h1, h2]

theorem loop_of_same_images (cs1 cs2 : List Container)
    (himg : cs1.map Container.Image = cs2.map Container.Image) :
    Handle.loop cs1 = Handle.loop cs2 := by
  induction cs1 generalizing cs2 with
  | nil =>
    cases cs2 with
    | nil => rfl
    | cons d rest2 => simp at himg
  | cons c rest ih =>
    cases cs2 with
    | nil => simp at himg
    | cons d rest2 =>
      simp only [List.map_cons, List.cons.injEq] at himg
      simp only [Handle.loop, himg.1, ih rest2 himg.2]

theorem Decode_reads_object_only (d : Option Decoder) (req1 req2 : Request) (into : Pod)
    (hobj : req1.Object = req2.Object) :
    Decoder.Decode d req1 into = Decoder.Decode d req2 into := by
  unfold Decoder.Decode
  rw [hobj]

/-- C11: the order of the containers does not change the verdict.  When two
    requests decode to pods whose containers are a permutation of one another,
    Handle returns the same response for both, with the same allowed flag and
    the same reason. -/
theorem Handle_container_order_irrelevant (v v2 : ValidationWebhook) (ctx ctx2 : Context)
    (req req2 : Request) (pod pod2 : Pod)
    (hdec : Decoder.Decode v.Decoder req Pod.zero = Exec.returns (Except.ok pod))
    (hdec2 : Decoder.Decode v2.Decoder req2 Pod.zero = Exec.returns (Except.ok pod2))
    (hperm : List.Perm (rangeOf pod2.Spec.Containers) (rangeOf pod.Spec.Containers)) :
    Handle v2 ctx2 req2 = Handle v ctx req ∧
      ∃ r, Handle v ctx req = Exec.returns r ∧ Handle v2 ctx2 req2 = Exec.returns r := by
  have heq : Handle v2 ctx2 req2 = Handle v ctx req := by
    rw [Handle_of_decoded v ctx req pod hdec, Handle_of_decoded v2 ctx2 req2 pod2 hdec2,
      loop_perm _ _ hperm]
  refine ⟨heq, _, Handle_of_decoded v ctx req pod hdec, ?_⟩
  rw [heq]
  exact Handle_of_decoded v ctx req pod hdec

theorem Handle_container_order_irrelevant_witness :
    Decoder.Decode (handlerFor (podOf (some [⟨"app:1"⟩, ⟨""⟩, ⟨"db:2"⟩]))).Decoder
        (sampleRequest "u11") Pod.zero
      = Exec.returns (Except.ok (podOf (some [⟨"app:1"⟩, ⟨""⟩, ⟨"db:2"⟩]))) ∧
    Decoder.Decode (handlerFor (podOf (some [⟨""⟩, ⟨"app:1"⟩, ⟨"db:2"⟩]))).Decoder
        (sampleRequest "u11") Pod.zero
      = Exec.returns (Except.ok (podOf (some [⟨""⟩, ⟨"app:1"⟩, ⟨"db:2"⟩]))) ∧
    List.Perm (rangeOf (podOf (some [⟨""⟩, ⟨"app:1"⟩, ⟨"db:2"⟩])).Spec.Containers)
      (rangeOf (podOf (some [⟨"app:1"⟩, ⟨""⟩, ⟨"db:2"⟩])).Spec.Containers) ∧
    Handle (handlerFor (podOf (some [⟨""⟩, ⟨"app:1"⟩, ⟨"db:2"⟩]))) ⟨false⟩
        (sampleRequest "u11")
      = Handle (handlerFor (podOf (some [⟨"app:1"⟩, ⟨""⟩, ⟨"db:2"⟩]))) ⟨false⟩
          (sampleRequest "u11") :=
  ⟨rfl, rfl, List.Perm.swap _ _ _,
    (Handle_container_order_irrelevant
      (handlerFor (podOf (some [⟨"app:1"⟩, ⟨""⟩, ⟨"db:2"⟩])))
      (handlerFor (podOf (some [⟨""⟩, ⟨"app:1"⟩, ⟨"db:2"⟩]))) ⟨false⟩ ⟨false⟩
      (sampleRequest "u11") (sampleRequest "u11") _ _ rfl rfl (List.Perm.swap _ _ _)).1⟩

/-- C12: the verdict depends only on the sequence of image strings of the decoded
    pod.  Two requests whose decodes succeed with pods that have the same list
    of images get the same response, whatever the handlers, contexts,
    operation kinds, request identifiers and pod metadata; and changing a
    request's identifier, operation kind, names or old object, or the handler's
    Client, leaves the outcome of Handle unchanged. -/
theorem Handle_depends_only_on_images (v1 v2 : ValidationWebhook) (ctx1 ctx2 : Context)
    (req1 req2 : Request) (pod1 pod2 : Pod)
    (hdec1 : Decoder.Decode v1.Decoder req1 Pod.zero = Exec.returns (Except.ok pod1))
    (hdec2 : Decoder.Decode v2.Decoder req2 Pod.zero = Exec.returns (Except.ok pod2))
    (himg : (rangeOf pod1.Spec.Containers).map Container.Image
      = (rangeOf pod2.Spec.Containers).map Container.Image) :
    Handle v1 ctx1 req1 = Handle v2 ctx2 req2 ∧
      (∀ (uid op name ns : String) (old : RawExtension) (client : Option Client)
          (ctx3 : Context),
        Handle ⟨client, v1.Decoder⟩ ctx3 ⟨uid, op, name, ns, req1.Object, old⟩
          = Handle v1 ctx1 req1) := by
  constructor
  · rw [Handle_of_decoded v1 ctx1 req1 pod1 hdec1, Handle_of_decoded v2 ctx2 req2 pod2 hdec2,
      loop_of_same_images _ _ himg]
  · intro uid op name ns old client ctx3
    unfold Handle
    rw [Decode_reads_object_only v1.Decoder ⟨uid, op, name, ns, req1.Object, old⟩ req1
      Pod.zero rfl]

theorem Handle_depends_only_on_images_witness :
    Decoder.Decode (handlerFor (podOf (some [⟨"app:1"⟩, ⟨""⟩]))).Decoder
        (sampleRequest "u12") Pod.zero
      = Exec.returns (Except.ok (podOf (some [⟨"app:1"⟩, ⟨""⟩]))) ∧
    Decoder.Decode
        (ValidationWebhook.mk (some ⟨3⟩) (some (fixedDecoder
          ⟨⟨"Pod", "v1"⟩, ⟨"web", "prod", [("tier", "front")]⟩,
            ⟨some [⟨"app:1"⟩, ⟨""⟩]⟩⟩))).Decoder
        ⟨"other-id", "DELETE", "web", "prod", ⟨[123, 125]⟩, ⟨[123, 125]⟩⟩ Pod.zero
      = Exec.returns (Except.ok
          ⟨⟨"Pod", "v1"⟩, ⟨"web", "prod", [("tier", "front")]⟩,
            ⟨some [⟨"app:1"⟩, ⟨""⟩]⟩⟩) ∧
    Handle (handlerFor (podOf (some [⟨"app:1"⟩, ⟨""⟩]))) ⟨false⟩ (sampleRequest "u12")
      = Handle
          (ValidationWebhook.mk (some ⟨3⟩) (some (fixedDecoder
            ⟨⟨"Pod", "v1"⟩, ⟨"web", "prod", [("tier", "front")]⟩,
              ⟨some [⟨"app:1"⟩, ⟨""⟩]⟩⟩)))
          ⟨true⟩ ⟨"other-id", "DELETE", "web", "prod", ⟨[123, 125]⟩, ⟨[123, 125]⟩⟩ :=
  ⟨rfl, rfl,
    (Handle_depends_only_on_images (handlerFor (podOf (some [⟨"app:1"⟩, ⟨""⟩])))
      (ValidationWebhook.mk (some ⟨3⟩) (some (fixedDecoder
        ⟨⟨"Pod", "v1"⟩, ⟨"web", "prod", [("tier", "front")]⟩,
          ⟨some [⟨"app:1"⟩, ⟨""⟩]⟩⟩)))
      ⟨false⟩ ⟨true⟩ (sampleRequest "u12")
      ⟨"other-id", "DELETE", "web", "prod", ⟨[123, 125]⟩, ⟨[123, 125]⟩⟩ _ _ rfl rfl rfl).1⟩

end ImageValidationWebhook
